import Mathlib

/-!
# itk::ParabolicOpenCloseSafeBorderImageFilter, configuration surface

Shallow embedding of `include/itkParabolicOpenCloseSafeBorderImageFilter.h`.

The class is a facade over four internal pipeline objects (morphological operator, constant
pad, crop, statistics).  An object is a record of its member variables, a member function
is a function from the receiver (and the arguments) to the receiver after the call; a
member function that can leave with a configuration error returns the receiver after the
call together with the error.  Every pipeline object carries `m_MTime`, the number of
`Modified()` calls it has received since it was made; this is the invalidation counter an
outside observer can read.

The header pulls in three things whose text is not part of the sources: the ITK macros
`itkSetMacro`, `itkGetConstReferenceMacro`, `itkBooleanMacro`; the internal operator
`itk::ParabolicOpenCloseImageFilter`; and the `.hxx` file with the bodies of `Modified()`
and `GenerateData()`.  Their models are marked as such, the member functions written in
the header are transcribed line by line.

`m_UseContactPoint` and `m_UseIntersection` (lines 172 and 173) are declared, never
initialised, never read and never written; they are left out of the record.
-/

set_option autoImplicit false

namespace itk

/-! ## Scalars and their comparisons -/

/-- ScalarRealType (line 57), a C++ floating type.  The configuration code stores these
values and compares them, it does no arithmetic on them, so a value is kept by its kind:
not-a-number, the two infinities, negative zero, and every other value as the rational it
denotes (`Finite 0` is positive zero; the rationals are a superset of the finite values
of the type). -/
inductive ScalarRealType where
  | NaN
  | NegInf
  | PosInf
  | NegZero
  | Finite (q : ℚ)
deriving DecidableEq

namespace ScalarRealType

/-- The C++ comparison `a != b`: true whenever an operand is NaN, also of NaN against
itself; false of the two zeros against each other. -/
def ne : ScalarRealType → ScalarRealType → Bool
  | Finite p, Finite q => decide (p ≠ q)
  | Finite p, NegZero => decide (p ≠ 0)
  | NegZero, Finite q => decide (q ≠ 0)
  | NegZero, NegZero => false
  | PosInf, PosInf => false
  | NegInf, NegInf => false
  | _, _ => true

/-- The C++ comparison `a < 0`: false of NaN and of both zeros. -/
def isNegative : ScalarRealType → Bool
  | NegInf => true
  | Finite q => decide (q < 0)
  | _ => false

/-- The C++ comparison `a >= 0`: false of NaN, true of both zeros. -/
def isNonneg : ScalarRealType → Bool
  | PosInf => true
  | NegZero => true
  | Finite q => decide (0 ≤ q)
  | _ => false

end ScalarRealType

/-- RadiusType (line 65): `itk::FixedArray< ScalarRealType, ImageDimension >`, one scale for
each of the `N` axes. -/
abbrev RadiusType (N : ℕ) := Fin N → ScalarRealType

namespace RadiusType

variable {N : ℕ}

/-- FixedArray::Fill: the array with every component equal to `value`. -/
def Fill (value : ScalarRealType) : RadiusType N := fun _ => value

/-- FixedArray::operator!= (ITK class, not in the sources): the arrays differ when the
scalar `!=` holds of the two components on some axis. -/
def ne (a b : RadiusType N) : Bool := decide (∃ i, (a i).ne (b i) = true)

/-- Some component of the scale is less than 0. -/
def HasNegative (scale : RadiusType N) : Bool := decide (∃ i, (scale i).isNegative = true)

end RadiusType

/-- The enumeration ParabolicAlgorithm (lines 123 to 127); an unscoped enumeration, its
enumerators convert to `int`. -/
def NOCHOICE : ℤ := 0

/-- CONTACTPOINT = 1 (line 125). -/
def CONTACTPOINT : ℤ := 1

/-- INTERSECTION = 2 (line 126). -/
def INTERSECTION : ℤ := 2

/-- Modelled from the spec: the configuration error of the error taxonomy, "Configuration
errors (negative scale, ...)", "fatal to that invocation, not to the process". -/
inductive ConfigurationError where
  | NegativeScale
deriving DecidableEq

/-- The outcome of a member call that can fail: the receiver as the call left it and the
configuration error the call reported, `none` when it returned normally. -/
structure CallOutcome (α : Type) where
  self : α
  error : Option ConfigurationError

/-- Modelled from the spec: an internal stage that the facade owns and only invalidates
(pad, crop, statistics; ITK classes, not in the sources).  "the internal stages are
themselves independently cacheable units (pad, morph, crop, stats)": the record keeps the
invalidation count of the stage. -/
structure ProcessObject where
  m_MTime : ℕ

/-- Modelled from the spec: Modified() of an internal stage, one more invalidation. -/
def ProcessObject.Modified (p : ProcessObject) : ProcessObject :=
  { p with m_MTime := p.m_MTime + 1 }

/-- PadFilterType (line 147). -/
abbrev PadFilterType := ProcessObject

/-- CropFilterType (line 148). -/
abbrev CropFilterType := ProcessObject

/-- StatsFilterType (line 149). -/
abbrev StatsFilterType := ProcessObject

/-! ## The internal morphological operator -/

/-- Modelled from the spec: the configuration held by the internal operator
`itk::ParabolicOpenCloseImageFilter` (MorphFilterType, line 146; its header is not in the
sources).  "given an Image, per-axis Scale, an Operation Kind, and a spacing-aware flag":
the operator holds the per-axis scale and the spacing-awareness flag, which the facade
reads back through GetScale and GetUseImageSpacing. -/
structure MorphFilterType (N : ℕ) where
  m_Scale : RadiusType N
  m_UseImageSpacing : Bool
  m_MTime : ℕ

namespace MorphFilterType

variable {N : ℕ}

/-- Modelled from the spec: Modified() of the internal operator, one more invalidation. -/
def Modified (m : MorphFilterType N) : MorphFilterType N :=
  { m with m_MTime := m.m_MTime + 1 }

/-- Modelled from the spec: GetScale of the internal operator, the stored per-axis scale. -/
def GetScale (m : MorphFilterType N) : RadiusType N := m.m_Scale

/-- Modelled from the spec: SetScale(RadiusType) of the internal operator.  "sets parabola
width ... per-axis (vector); rejects negative components"; "a requested Scale component
that is negative is a configuration error and must be rejected before any image is
touched", reported "synchronously at the point of invalid configuration": a scale with a
component less than 0 is refused with the operator left as it was.  Any other scale is
taken, NaN included, which is not less than 0.  "setting a parameter to its current value
is a no-op (no invalidation)": a scale that does not differ from the stored one under
`!=` changes nothing, a scale that differs is stored and invalidates the operator. -/
def SetScale_RadiusType (m : MorphFilterType N) (scale : RadiusType N) :
    CallOutcome (MorphFilterType N) :=
  if scale.HasNegative then
    { self := m, error := some ConfigurationError.NegativeScale }
  else if RadiusType.ne m.m_Scale scale then
    { self := Modified { m with m_Scale := scale }, error := none }
  else
    { self := m, error := none }

/-- Modelled from the spec: SetScale(ScalarRealType) of the internal operator.  "sets
parabola width for every axis (uniform)": fill an array with the value and hand it to the
per-axis setter. -/
def SetScale_ScalarRealType (m : MorphFilterType N) (scale : ScalarRealType) :
    CallOutcome (MorphFilterType N) :=
  m.SetScale_RadiusType (RadiusType.Fill scale)

/-- Modelled from the spec: GetUseImageSpacing of the internal operator. -/
def GetUseImageSpacing (m : MorphFilterType N) : Bool := m.m_UseImageSpacing

/-- Modelled from the spec: SetUseImageSpacing of the internal operator; a new value is
stored and invalidates the operator, the current value changes nothing. -/
def SetUseImageSpacing (m : MorphFilterType N) (B : Bool) : MorphFilterType N :=
  if m.m_UseImageSpacing ≠ B then Modified { m with m_UseImageSpacing := B } else m

/-- Modelled from the spec: MorphFilterType::New().  The spec names no default for the
scale or for the spacing-awareness flag, so the values a new operator holds are
arguments. -/
def New (scale : RadiusType N) (useImageSpacing : Bool) : MorphFilterType N :=
  { m_Scale := scale, m_UseImageSpacing := useImageSpacing, m_MTime := 0 }

end MorphFilterType

/-! ## The facade -/

/-- The member variables of ParabolicOpenCloseSafeBorderImageFilter (lines 162 to 171) and
the modification count it inherits from itk::Object.  `N` is TInputImage::ImageDimension
and `doOpen` the template argument that fixes the operation kind. -/
structure ParabolicOpenCloseSafeBorderImageFilter (N : ℕ) (doOpen : Bool) where
  m_MTime : ℕ
  m_ParabolicAlgorithm : ℤ
  m_MorphFilt : MorphFilterType N
  m_PadFilt : PadFilterType
  m_CropFilt : CropFilterType
  m_StatsFilt : StatsFilterType
  m_SafeBorder : Bool

namespace ParabolicOpenCloseSafeBorderImageFilter

variable {N : ℕ} {doOpen : Bool}

/-- The constructor (lines 151 to 159) behind itkNewMacro(Self): four new internal objects,
border safety on, algorithm INTERSECTION.  The arguments are the values held by the new
internal operator. -/
def New (N : ℕ) (doOpen : Bool) (scale : RadiusType N) (useImageSpacing : Bool) :
    ParabolicOpenCloseSafeBorderImageFilter N doOpen :=
  { m_MTime := 0
    m_MorphFilt := MorphFilterType.New scale useImageSpacing
    m_PadFilt := { m_MTime := 0 }
    m_CropFilt := { m_MTime := 0 }
    m_StatsFilt := { m_MTime := 0 }
    m_SafeBorder := true
    m_ParabolicAlgorithm := INTERSECTION }

/-- Modelled from the spec: Modified() (declared on line 139, body in the `.hxx` that is
not in the sources).  "ParabolicOpenCloseImageFilter must forward the Modified() call to
its internal filters" (lines 137 and 138); "invalidates the facade and all downstream
internal stages atomically". -/
def Modified (f : ParabolicOpenCloseSafeBorderImageFilter N doOpen) :
    ParabolicOpenCloseSafeBorderImageFilter N doOpen :=
  { f with
    m_MTime := f.m_MTime + 1
    m_MorphFilt := f.m_MorphFilt.Modified
    m_PadFilt := f.m_PadFilt.Modified
    m_CropFilt := f.m_CropFilt.Modified
    m_StatsFilt := f.m_StatsFilt.Modified }

/-- GetScale (lines 97 to 100). -/
def GetScale (f : ParabolicOpenCloseSafeBorderImageFilter N doOpen) : RadiusType N :=
  f.m_MorphFilt.GetScale

/-- The receiver with its internal operator replaced by the operator as a call on it
left it. -/
def withMorphFilt (f : ParabolicOpenCloseSafeBorderImageFilter N doOpen)
    (m : MorphFilterType N) : ParabolicOpenCloseSafeBorderImageFilter N doOpen :=
  { f with m_MorphFilt := m }

/-- SetScale(ScalarRealType) (lines 75 to 84): set all of the scales the same.  Line 77
reads the scale, line 79 calls the operator; an error of that call leaves the function
at once, otherwise line 80 compares the scale read with the scale now held and line 82
calls Modified() when they differ. -/
def SetScale_ScalarRealType (f : ParabolicOpenCloseSafeBorderImageFilter N doOpen)
    (scale : ScalarRealType) : CallOutcome (ParabolicOpenCloseSafeBorderImageFilter N doOpen) :=
  let s := f.GetScale
  let r := f.m_MorphFilt.SetScale_ScalarRealType scale
  match r.error with
  | some e => { self := f.withMorphFilt r.self, error := some e }
  | none =>
    if RadiusType.ne s (f.withMorphFilt r.self).GetScale then
      { self := (f.withMorphFilt r.self).Modified, error := none }
    else
      { self := f.withMorphFilt r.self, error := none }

/-- SetScale(RadiusType) (lines 87 to 94): different scale for each direction.  Line 89
compares the argument with the scale held; when they differ line 91 calls the operator,
an error of that call leaves the function at once, otherwise line 92 calls Modified(). -/
def SetScale_RadiusType (f : ParabolicOpenCloseSafeBorderImageFilter N doOpen)
    (scale : RadiusType N) : CallOutcome (ParabolicOpenCloseSafeBorderImageFilter N doOpen) :=
  if RadiusType.ne scale f.GetScale then
    let r := f.m_MorphFilt.SetScale_RadiusType scale
    match r.error with
    | some e => { self := f.withMorphFilt r.self, error := some e }
    | none => { self := (f.withMorphFilt r.self).Modified, error := none }
  else
    { self := f, error := none }

/-- GetUseImageSpacing (lines 111 to 114). -/
def GetUseImageSpacing (f : ParabolicOpenCloseSafeBorderImageFilter N doOpen) : Bool :=
  f.m_MorphFilt.GetUseImageSpacing

/-- SetUseImageSpacing (lines 102 to 109). -/
def SetUseImageSpacing (f : ParabolicOpenCloseSafeBorderImageFilter N doOpen) (B : Bool) :
    ParabolicOpenCloseSafeBorderImageFilter N doOpen :=
  if B ≠ f.GetUseImageSpacing then
    Modified { f with m_MorphFilt := f.m_MorphFilt.SetUseImageSpacing B }
  else f

/-- Modelled from the spec: itkBooleanMacro(UseImageSpacing) (line 116, ITK macro not in the
sources), the member that switches the flag on through the setter. -/
def UseImageSpacingOn (f : ParabolicOpenCloseSafeBorderImageFilter N doOpen) :
    ParabolicOpenCloseSafeBorderImageFilter N doOpen :=
  f.SetUseImageSpacing true

/-- Modelled from the spec: itkBooleanMacro(UseImageSpacing), the member that switches the
flag off through the setter. -/
def UseImageSpacingOff (f : ParabolicOpenCloseSafeBorderImageFilter N doOpen) :
    ParabolicOpenCloseSafeBorderImageFilter N doOpen :=
  f.SetUseImageSpacing false

/-- Modelled from the spec: itkSetMacro(SafeBorder, bool) (line 118, ITK macro not in the
sources).  "setting a parameter to its current value is a no-op (no invalidation); setting
it to a new value invalidates the facade and all downstream internal stages". -/
def SetSafeBorder (f : ParabolicOpenCloseSafeBorderImageFilter N doOpen) (_arg : Bool) :
    ParabolicOpenCloseSafeBorderImageFilter N doOpen :=
  if f.m_SafeBorder ≠ _arg then Modified { f with m_SafeBorder := _arg } else f

/-- Modelled from the spec: itkGetConstReferenceMacro(SafeBorder, bool) (line 119), the
stored flag. -/
def GetSafeBorder (f : ParabolicOpenCloseSafeBorderImageFilter N doOpen) : Bool :=
  f.m_SafeBorder

/-- Modelled from the spec: itkBooleanMacro(SafeBorder) (line 120), switch on through the
setter. -/
def SafeBorderOn (f : ParabolicOpenCloseSafeBorderImageFilter N doOpen) :
    ParabolicOpenCloseSafeBorderImageFilter N doOpen :=
  f.SetSafeBorder true

/-- Modelled from the spec: itkBooleanMacro(SafeBorder), switch off through the setter. -/
def SafeBorderOff (f : ParabolicOpenCloseSafeBorderImageFilter N doOpen) :
    ParabolicOpenCloseSafeBorderImageFilter N doOpen :=
  f.SetSafeBorder false

/-- Modelled from the spec: itkSetMacro(ParabolicAlgorithm, int) (line 134, ITK macro not
in the sources).  The argument type written in the header is `int`, not the enumeration;
a new value is stored and invalidates, the current value changes nothing. -/
def SetParabolicAlgorithm (f : ParabolicOpenCloseSafeBorderImageFilter N doOpen) (_arg : ℤ) :
    ParabolicOpenCloseSafeBorderImageFilter N doOpen :=
  if f.m_ParabolicAlgorithm ≠ _arg then Modified { f with m_ParabolicAlgorithm := _arg }
  else f

/-- Modelled from the spec: itkGetConstReferenceMacro(ParabolicAlgorithm, int) (line 135),
the stored value. -/
def GetParabolicAlgorithm (f : ParabolicOpenCloseSafeBorderImageFilter N doOpen) : ℤ :=
  f.m_ParabolicAlgorithm

end ParabolicOpenCloseSafeBorderImageFilter

/-! ## The pad fill value of the border-safety wrapper -/

/-- Modelled from the spec: the Statistics Summary, "min, max ... scalar values computed
over an Image; used only to pick a safe pad fill value" (GetMinimum and GetMaximum of the
statistics stage, an ITK class not in the sources). -/
structure StatisticsSummary (P : Type) where
  m_Minimum : P
  m_Maximum : P

/-- Modelled from the spec: one step of the statistics scan, the summary widened by one
more sample. -/
def StatisticsSummary.accumulate {P : Type} [LinearOrder P]
    (st : StatisticsSummary P) (p : P) : StatisticsSummary P :=
  { m_Minimum := min st.m_Minimum p, m_Maximum := max st.m_Maximum p }

/-- Modelled from the spec: the statistics collaborator, "given an Image, returns
{min, max}", a single scan over the samples of the image (given as the list of its
samples).  An image without samples has no summary ("Degenerate input (zero-extent axis,
empty image): reported before any computation"). -/
def ComputeStatistics {P : Type} [LinearOrder P] : List P → Option (StatisticsSummary P)
  | [] => none
  | p :: ps => some (ps.foldl StatisticsSummary.accumulate { m_Minimum := p, m_Maximum := p })

/-- Modelled from the spec: the pad fill value chosen by GenerateData() (declared on line
142, body in the `.hxx` that is not in the sources), steps 1 and 2 of the border-safety
protocol: "Compute a Statistics Summary (min, max) of the input image"; "for OPEN, pad
with the image's maximum value ...; for CLOSE, pad with the minimum value".  With the
border-safety flag off the padding steps are skipped and there is no fill value. -/
def ParabolicOpenCloseSafeBorderImageFilter.PadConstant {N : ℕ} {doOpen : Bool} {P : Type}
    [LinearOrder P] (f : ParabolicOpenCloseSafeBorderImageFilter N doOpen)
    (image : List P) : Option P :=
  if f.m_SafeBorder then
    (ComputeStatistics image).map fun st => if doOpen then st.m_Maximum else st.m_Minimum
  else none

/-! ## Sequences of setter calls -/

/-- One call of a public setter of the facade, with its argument. -/
inductive SetterCall (N : ℕ) where
  | SetScale_ScalarRealType (scale : ScalarRealType)
  | SetScale_RadiusType (scale : RadiusType N)
  | SetUseImageSpacing (B : Bool)
  | UseImageSpacingOn
  | UseImageSpacingOff
  | SetSafeBorder (_arg : Bool)
  | SafeBorderOn
  | SafeBorderOff
  | SetParabolicAlgorithm (_arg : ℤ)

/-- The filter after one setter call, whether the call returned normally or reported a
configuration error to its caller. -/
def SetterCall.run {N : ℕ} {doOpen : Bool}
    (f : ParabolicOpenCloseSafeBorderImageFilter N doOpen) :
    SetterCall N → ParabolicOpenCloseSafeBorderImageFilter N doOpen
  | .SetScale_ScalarRealType scale => (f.SetScale_ScalarRealType scale).self
  | .SetScale_RadiusType scale => (f.SetScale_RadiusType scale).self
  | .SetUseImageSpacing B => f.SetUseImageSpacing B
  | .UseImageSpacingOn => f.UseImageSpacingOn
  | .UseImageSpacingOff => f.UseImageSpacingOff
  | .SetSafeBorder b => f.SetSafeBorder b
  | .SafeBorderOn => f.SafeBorderOn
  | .SafeBorderOff => f.SafeBorderOff
  | .SetParabolicAlgorithm a => f.SetParabolicAlgorithm a

/-- The filter after a sequence of setter calls, first call first. -/
def runCalls {N : ℕ} {doOpen : Bool} (f : ParabolicOpenCloseSafeBorderImageFilter N doOpen)
    (calls : List (SetterCall N)) : ParabolicOpenCloseSafeBorderImageFilter N doOpen :=
  calls.foldl SetterCall.run f

/-! ## Predicates used in the statements -/

/-- The five invalidation counts of `before` and `after` show one facade Modified() call
between them that reached every internal stage: the facade count went up by one and the
count of the operator, the pad, the crop and the statistics stage each went up. -/
def InvalidatedAll {N : ℕ} {doOpen : Bool}
    (before after : ParabolicOpenCloseSafeBorderImageFilter N doOpen) : Prop :=
  after.m_MTime = before.m_MTime + 1 ∧
  before.m_MorphFilt.m_MTime < after.m_MorphFilt.m_MTime ∧
  before.m_PadFilt.m_MTime < after.m_PadFilt.m_MTime ∧
  before.m_CropFilt.m_MTime < after.m_CropFilt.m_MTime ∧
  before.m_StatsFilt.m_MTime < after.m_StatsFilt.m_MTime

instance {N : ℕ} {doOpen : Bool}
    (before after : ParabolicOpenCloseSafeBorderImageFilter N doOpen) :
    Decidable (InvalidatedAll before after) := by
  unfold InvalidatedAll
  infer_instance

/-- The value is one of the three enumerators of ParabolicAlgorithm. -/
def IsParabolicAlgorithm (a : ℤ) : Prop :=
  a = NOCHOICE ∨ a = CONTACTPOINT ∨ a = INTERSECTION

instance (a : ℤ) : Decidable (IsParabolicAlgorithm a) :=
  inferInstanceAs (Decidable (a = NOCHOICE ∨ a = CONTACTPOINT ∨ a = INTERSECTION))

/-- Every component of the scale satisfies `>= 0`. -/
def ScaleNonneg {N : ℕ} (scale : RadiusType N) : Prop := ∀ i, (scale i).isNonneg = true

instance {N : ℕ} (scale : RadiusType N) : Decidable (ScaleNonneg scale) :=
  inferInstanceAs (Decidable (∀ i, (scale i).isNonneg = true))

/-- The argument of the call, when it is a SetParabolicAlgorithm call, is an enumerator. -/
def SetterCall.AlgorithmArgEnumerated {N : ℕ} : SetterCall N → Prop
  | .SetParabolicAlgorithm a => IsParabolicAlgorithm a
  | _ => True

instance {N : ℕ} (c : SetterCall N) : Decidable c.AlgorithmArgEnumerated := by
  cases c <;> unfold SetterCall.AlgorithmArgEnumerated <;> infer_instance

/-! ## Lemmas on the comparisons -/

namespace ScalarRealType

theorem ne_comm (a b : ScalarRealType) : a.ne b = b.ne a := by
  cases a <;> cases b <;> simp [ne, eq_comm]

theorem ne_self_of_ne_eq_false {a b : ScalarRealType} (h : a.ne b = false) :
    a.ne a = false := by
  cases a <;> cases b <;> simp_all [ne]

theorem ne_self_of_isNonneg {a : ScalarRealType} (h : a.isNonneg = true) :
    a.ne a = false := by
  cases a <;> simp_all [ne, isNonneg]

theorem isNegative_eq_false_of_isNonneg {a : ScalarRealType} (h : a.isNonneg = true) :
    a.isNegative = false := by
  cases a <;> simp_all [isNegative, isNonneg]

end ScalarRealType

namespace RadiusType

variable {N : ℕ}

theorem ne_eq_false_iff (a b : RadiusType N) :
    RadiusType.ne a b = false ↔ ∀ i, (a i).ne (b i) = false := by
  simp [RadiusType.ne]

theorem radius_ne_comm (a b : RadiusType N) : RadiusType.ne a b = RadiusType.ne b a := by
  simp only [RadiusType.ne, ScalarRealType.ne_comm]

theorem hasNegative_eq_false_iff (scale : RadiusType N) :
    scale.HasNegative = false ↔ ∀ i, (scale i).isNegative = false := by
  simp [RadiusType.HasNegative]

theorem hasNegative_eq_false_of_scaleNonneg {scale : RadiusType N} (h : ScaleNonneg scale) :
    scale.HasNegative = false :=
  (hasNegative_eq_false_iff scale).mpr fun i =>
    ScalarRealType.isNegative_eq_false_of_isNonneg (h i)

end RadiusType

/-! ## Lemmas on the internal operator -/

namespace MorphFilterType

variable {N : ℕ}

theorem morph_setScale_rejected (m : MorphFilterType N) {scale : RadiusType N}
    (h : scale.HasNegative = true) :
    m.SetScale_RadiusType scale =
      { self := m, error := some ConfigurationError.NegativeScale } := by
  simp [SetScale_RadiusType, h]

theorem morph_setScale_stored (m : MorphFilterType N) {scale : RadiusType N}
    (h1 : scale.HasNegative = false) (h2 : RadiusType.ne m.m_Scale scale = true) :
    m.SetScale_RadiusType scale =
      { self := Modified { m with m_Scale := scale }, error := none } := by
  simp [SetScale_RadiusType, h1, h2]

theorem morph_setScale_kept (m : MorphFilterType N) {scale : RadiusType N}
    (h1 : scale.HasNegative = false) (h2 : RadiusType.ne m.m_Scale scale = false) :
    m.SetScale_RadiusType scale = { self := m, error := none } := by
  simp [SetScale_RadiusType, h1, h2]

theorem morph_error_setScale (m : MorphFilterType N) (scale : RadiusType N) :
    (m.SetScale_RadiusType scale).error =
      if scale.HasNegative then some ConfigurationError.NegativeScale else none := by
  unfold SetScale_RadiusType
  split
  · rfl
  · split <;> rfl

theorem morph_mtime_le_setScale (m : MorphFilterType N) (scale : RadiusType N) :
    m.m_MTime ≤ (m.SetScale_RadiusType scale).self.m_MTime := by
  unfold SetScale_RadiusType
  split
  · exact le_refl _
  · split
    · exact Nat.le_succ _
    · exact le_refl _

theorem morph_useImageSpacing_setScale (m : MorphFilterType N) (scale : RadiusType N) :
    (m.SetScale_RadiusType scale).self.GetUseImageSpacing = m.GetUseImageSpacing := by
  unfold SetScale_RadiusType
  split
  · rfl
  · split <;> rfl

theorem morph_getUseImageSpacing_setUseImageSpacing (m : MorphFilterType N) (B : Bool) :
    (m.SetUseImageSpacing B).GetUseImageSpacing = B := by
  unfold SetUseImageSpacing GetUseImageSpacing Modified
  by_cases h : m.m_UseImageSpacing = B <;> simp [h]

theorem morph_getScale_setUseImageSpacing (m : MorphFilterType N) (B : Bool) :
    (m.SetUseImageSpacing B).GetScale = m.GetScale := by
  unfold SetUseImageSpacing GetScale Modified
  by_cases h : m.m_UseImageSpacing = B <;> simp [h]

theorem morph_mtime_le_setUseImageSpacing (m : MorphFilterType N) (B : Bool) :
    m.m_MTime ≤ (m.SetUseImageSpacing B).m_MTime := by
  unfold SetUseImageSpacing Modified
  by_cases h : m.m_UseImageSpacing = B <;> simp [h]

end MorphFilterType

/-! ## Lemmas on the facade -/

namespace ParabolicOpenCloseSafeBorderImageFilter

variable {N : ℕ} {doOpen : Bool}

theorem invalidatedAll_modified (f : ParabolicOpenCloseSafeBorderImageFilter N doOpen) :
    InvalidatedAll f f.Modified := by
  simp [InvalidatedAll, Modified, MorphFilterType.Modified, ProcessObject.Modified]

/-- Modified() applied to a state `g` that differs from `f` only in configuration values,
with an operator count that is not smaller, invalidates everything relative to `f`. -/
theorem invalidatedAll_modified_of (f g : ParabolicOpenCloseSafeBorderImageFilter N doOpen)
    (h0 : g.m_MTime = f.m_MTime)
    (h1 : f.m_MorphFilt.m_MTime ≤ g.m_MorphFilt.m_MTime)
    (h2 : g.m_PadFilt = f.m_PadFilt) (h3 : g.m_CropFilt = f.m_CropFilt)
    (h4 : g.m_StatsFilt = f.m_StatsFilt) :
    InvalidatedAll f g.Modified := by
  simp only [InvalidatedAll, Modified, MorphFilterType.Modified, ProcessObject.Modified,
    h0, h2, h3, h4]
  refine ⟨trivial, ?_, ?_, ?_, ?_⟩ <;> omega

/-! ### SetScale(RadiusType) -/

/-- Line 89 false: nothing is called. -/
theorem setScale_RadiusType_same (f : ParabolicOpenCloseSafeBorderImageFilter N doOpen)
    {v : RadiusType N} (h : RadiusType.ne v f.GetScale = false) :
    f.SetScale_RadiusType v = { self := f, error := none } := by
  simp [SetScale_RadiusType, h]

/-- Line 89 true and the operator refuses the scale: the error leaves the function before
line 92. -/
theorem setScale_RadiusType_rejected (f : ParabolicOpenCloseSafeBorderImageFilter N doOpen)
    {v : RadiusType N} (h : RadiusType.ne v f.GetScale = true) (hn : v.HasNegative = true) :
    f.SetScale_RadiusType v =
      { self := f, error := some ConfigurationError.NegativeScale } := by
  simp only [SetScale_RadiusType, h, if_true, MorphFilterType.morph_setScale_rejected _ hn]
  rfl

/-- Line 89 true and the operator returns normally: line 92 calls Modified(). -/
theorem setScale_RadiusType_accepted (f : ParabolicOpenCloseSafeBorderImageFilter N doOpen)
    {v : RadiusType N} (h : RadiusType.ne v f.GetScale = true) (hn : v.HasNegative = false) :
    f.SetScale_RadiusType v =
      { self := (f.withMorphFilt (f.m_MorphFilt.SetScale_RadiusType v).self).Modified,
        error := none } := by
  have he := MorphFilterType.morph_error_setScale f.m_MorphFilt v
  simp only [hn, Bool.false_eq_true, if_false] at he
  simp only [SetScale_RadiusType, h, if_true, he]

/-! ### SetScale(ScalarRealType) -/

/-- The operator refuses the scale on line 79: the error leaves the function. -/
theorem setScale_ScalarRealType_rejected (f : ParabolicOpenCloseSafeBorderImageFilter N doOpen)
    {s : ScalarRealType} (hn : (RadiusType.Fill s : RadiusType N).HasNegative = true) :
    f.SetScale_ScalarRealType s =
      { self := f, error := some ConfigurationError.NegativeScale } := by
  simp only [SetScale_ScalarRealType, MorphFilterType.SetScale_ScalarRealType,
    MorphFilterType.morph_setScale_rejected _ hn]
  rfl

/-- The operator stores the scale on line 79: line 80 finds a difference and line 82
calls Modified(). -/
theorem setScale_ScalarRealType_stored (f : ParabolicOpenCloseSafeBorderImageFilter N doOpen)
    {s : ScalarRealType} (hn : (RadiusType.Fill s : RadiusType N).HasNegative = false)
    (h : RadiusType.ne f.GetScale (RadiusType.Fill s) = true) :
    f.SetScale_ScalarRealType s =
      { self := (f.withMorphFilt
          (MorphFilterType.Modified { f.m_MorphFilt with m_Scale := RadiusType.Fill s })).Modified,
        error := none } := by
  have h2 : RadiusType.ne f.m_MorphFilt.m_Scale (RadiusType.Fill s) = true := h
  simp only [SetScale_ScalarRealType, MorphFilterType.SetScale_ScalarRealType,
    MorphFilterType.morph_setScale_stored _ hn h2]
  have h3 : RadiusType.ne f.GetScale
      (f.withMorphFilt (MorphFilterType.Modified
        { f.m_MorphFilt with m_Scale := RadiusType.Fill s })).GetScale = true := h
  simp only [h3, if_true]

/-- The operator keeps its scale on line 79: the receiver is as it was when line 80 is
reached, and with no NaN on an axis line 80 finds no difference. -/
theorem setScale_ScalarRealType_kept (f : ParabolicOpenCloseSafeBorderImageFilter N doOpen)
    {s : ScalarRealType} (hn : (RadiusType.Fill s : RadiusType N).HasNegative = false)
    (h : RadiusType.ne f.GetScale (RadiusType.Fill s) = false) :
    f.SetScale_ScalarRealType s = { self := f, error := none } := by
  have h2 : RadiusType.ne f.m_MorphFilt.m_Scale (RadiusType.Fill s) = false := h
  have h3 : RadiusType.ne f.GetScale (f.withMorphFilt f.m_MorphFilt).GetScale = false := by
    rw [RadiusType.ne_eq_false_iff] at h ⊢
    exact fun i => ScalarRealType.ne_self_of_ne_eq_false (h i)
  simp only [SetScale_ScalarRealType, MorphFilterType.SetScale_ScalarRealType,
    MorphFilterType.morph_setScale_kept _ hn h2, h3]
  rfl

/-- The three ways the scalar overload can go, by the test of the operator and the
comparison of the scale held with the filled array. -/
theorem setScale_ScalarRealType_cases (f : ParabolicOpenCloseSafeBorderImageFilter N doOpen)
    (s : ScalarRealType) :
    ((RadiusType.Fill s : RadiusType N).HasNegative = true ∧
      f.SetScale_ScalarRealType s =
        { self := f, error := some ConfigurationError.NegativeScale }) ∨
    ((RadiusType.Fill s : RadiusType N).HasNegative = false ∧
      RadiusType.ne f.GetScale (RadiusType.Fill s) = true ∧
      f.SetScale_ScalarRealType s =
        { self := (f.withMorphFilt (MorphFilterType.Modified
            { f.m_MorphFilt with m_Scale := RadiusType.Fill s })).Modified,
          error := none }) ∨
    ((RadiusType.Fill s : RadiusType N).HasNegative = false ∧
      RadiusType.ne f.GetScale (RadiusType.Fill s) = false ∧
      f.SetScale_ScalarRealType s = { self := f, error := none }) := by
  by_cases hn : (RadiusType.Fill s : RadiusType N).HasNegative = true
  · exact Or.inl ⟨hn, setScale_ScalarRealType_rejected f hn⟩
  · have hn : (RadiusType.Fill s : RadiusType N).HasNegative = false := by simpa using hn
    by_cases h : RadiusType.ne f.GetScale (RadiusType.Fill s) = true
    · exact Or.inr (Or.inl ⟨hn, h, setScale_ScalarRealType_stored f hn h⟩)
    · have h : RadiusType.ne f.GetScale (RadiusType.Fill s) = false := by simpa using h
      exact Or.inr (Or.inr ⟨hn, h, setScale_ScalarRealType_kept f hn h⟩)

/-- The three ways the per-axis overload can go. -/
theorem setScale_RadiusType_cases (f : ParabolicOpenCloseSafeBorderImageFilter N doOpen)
    (v : RadiusType N) :
    (RadiusType.ne v f.GetScale = false ∧
      f.SetScale_RadiusType v = { self := f, error := none }) ∨
    (RadiusType.ne v f.GetScale = true ∧ v.HasNegative = true ∧
      f.SetScale_RadiusType v =
        { self := f, error := some ConfigurationError.NegativeScale }) ∨
    (RadiusType.ne v f.GetScale = true ∧ v.HasNegative = false ∧
      f.SetScale_RadiusType v =
        { self := (f.withMorphFilt (f.m_MorphFilt.SetScale_RadiusType v).self).Modified,
          error := none }) := by
  by_cases h : RadiusType.ne v f.GetScale = true
  · by_cases hn : v.HasNegative = true
    · exact Or.inr (Or.inl ⟨h, hn, setScale_RadiusType_rejected f h hn⟩)
    · have hn : v.HasNegative = false := by simpa using hn
      exact Or.inr (Or.inr ⟨h, hn, setScale_RadiusType_accepted f h hn⟩)
  · have h : RadiusType.ne v f.GetScale = false := by simpa using h
    exact Or.inl ⟨h, setScale_RadiusType_same f h⟩

end ParabolicOpenCloseSafeBorderImageFilter

/-! ## Frame lemmas and sequences of setter calls -/

namespace ParabolicOpenCloseSafeBorderImageFilter

variable {N : ℕ} {doOpen : Bool}

/-- The scalar overload leaves the three other configuration values as they were. -/
theorem frame_setScale_ScalarRealType (f : ParabolicOpenCloseSafeBorderImageFilter N doOpen)
    (s : ScalarRealType) :
    (f.SetScale_ScalarRealType s).self.GetUseImageSpacing = f.GetUseImageSpacing ∧
    (f.SetScale_ScalarRealType s).self.GetSafeBorder = f.GetSafeBorder ∧
    (f.SetScale_ScalarRealType s).self.GetParabolicAlgorithm = f.GetParabolicAlgorithm := by
  rcases setScale_ScalarRealType_cases f s with ⟨_, h⟩ | ⟨_, _, h⟩ | ⟨_, _, h⟩ <;>
    rw [h] <;> exact ⟨rfl, rfl, rfl⟩

/-- The per-axis overload leaves the three other configuration values as they were. -/
theorem frame_setScale_RadiusType (f : ParabolicOpenCloseSafeBorderImageFilter N doOpen)
    (v : RadiusType N) :
    (f.SetScale_RadiusType v).self.GetUseImageSpacing = f.GetUseImageSpacing ∧
    (f.SetScale_RadiusType v).self.GetSafeBorder = f.GetSafeBorder ∧
    (f.SetScale_RadiusType v).self.GetParabolicAlgorithm = f.GetParabolicAlgorithm := by
  rcases setScale_RadiusType_cases f v with ⟨_, h⟩ | ⟨_, _, h⟩ | ⟨_, _, h⟩
  · rw [h]
    exact ⟨rfl, rfl, rfl⟩
  · rw [h]
    exact ⟨rfl, rfl, rfl⟩
  · rw [h]
    exact ⟨MorphFilterType.morph_useImageSpacing_setScale f.m_MorphFilt v, rfl, rfl⟩

theorem setUseImageSpacing_changed (f : ParabolicOpenCloseSafeBorderImageFilter N doOpen)
    (B : Bool) (h : B ≠ f.GetUseImageSpacing) :
    f.SetUseImageSpacing B =
      Modified { f with m_MorphFilt := f.m_MorphFilt.SetUseImageSpacing B } := by
  unfold SetUseImageSpacing
  rw [if_pos h]

theorem setUseImageSpacing_current (f : ParabolicOpenCloseSafeBorderImageFilter N doOpen)
    (B : Bool) (h : B = f.GetUseImageSpacing) : f.SetUseImageSpacing B = f := by
  unfold SetUseImageSpacing
  rw [if_neg (not_not.mpr h)]

theorem setSafeBorder_changed (f : ParabolicOpenCloseSafeBorderImageFilter N doOpen)
    (b : Bool) (h : b ≠ f.GetSafeBorder) :
    f.SetSafeBorder b = Modified { f with m_SafeBorder := b } := by
  unfold SetSafeBorder
  rw [if_pos (fun hc => h hc.symm)]

theorem setParabolicAlgorithm_changed (f : ParabolicOpenCloseSafeBorderImageFilter N doOpen)
    (a : ℤ) (h : a ≠ f.GetParabolicAlgorithm) :
    f.SetParabolicAlgorithm a = Modified { f with m_ParabolicAlgorithm := a } := by
  unfold SetParabolicAlgorithm
  rw [if_pos (fun hc => h hc.symm)]

theorem getParabolicAlgorithm_setParabolicAlgorithm
    (f : ParabolicOpenCloseSafeBorderImageFilter N doOpen) (a : ℤ) :
    (f.SetParabolicAlgorithm a).GetParabolicAlgorithm = a := by
  unfold SetParabolicAlgorithm
  by_cases h : f.m_ParabolicAlgorithm = a
  · rw [if_neg (not_not.mpr h)]
    exact h
  · rw [if_pos h]
    rfl

theorem getParabolicAlgorithm_setUseImageSpacing
    (f : ParabolicOpenCloseSafeBorderImageFilter N doOpen) (B : Bool) :
    (f.SetUseImageSpacing B).GetParabolicAlgorithm = f.GetParabolicAlgorithm := by
  unfold SetUseImageSpacing
  split <;> rfl

theorem getParabolicAlgorithm_setSafeBorder
    (f : ParabolicOpenCloseSafeBorderImageFilter N doOpen) (b : Bool) :
    (f.SetSafeBorder b).GetParabolicAlgorithm = f.GetParabolicAlgorithm := by
  unfold SetSafeBorder
  split <;> rfl

/-- One setter call with an enumerator argument keeps the algorithm choice enumerated. -/
theorem isParabolicAlgorithm_run (f : ParabolicOpenCloseSafeBorderImageFilter N doOpen)
    (c : SetterCall N) (hf : IsParabolicAlgorithm f.GetParabolicAlgorithm)
    (hc : c.AlgorithmArgEnumerated) :
    IsParabolicAlgorithm (c.run f).GetParabolicAlgorithm := by
  cases c with
  | SetScale_ScalarRealType s => exact (frame_setScale_ScalarRealType f s).2.2.symm ▸ hf
  | SetScale_RadiusType v => exact (frame_setScale_RadiusType f v).2.2.symm ▸ hf
  | SetUseImageSpacing B => exact (getParabolicAlgorithm_setUseImageSpacing f B).symm ▸ hf
  | UseImageSpacingOn => exact (getParabolicAlgorithm_setUseImageSpacing f true).symm ▸ hf
  | UseImageSpacingOff => exact (getParabolicAlgorithm_setUseImageSpacing f false).symm ▸ hf
  | SetSafeBorder b => exact (getParabolicAlgorithm_setSafeBorder f b).symm ▸ hf
  | SafeBorderOn => exact (getParabolicAlgorithm_setSafeBorder f true).symm ▸ hf
  | SafeBorderOff => exact (getParabolicAlgorithm_setSafeBorder f false).symm ▸ hf
  | SetParabolicAlgorithm a =>
    exact (getParabolicAlgorithm_setParabolicAlgorithm f a).symm ▸ hc

/-- A sequence of setter calls with enumerator arguments keeps the choice enumerated. -/
theorem isParabolicAlgorithm_runCalls (calls : List (SetterCall N))
    (f : ParabolicOpenCloseSafeBorderImageFilter N doOpen)
    (hf : IsParabolicAlgorithm f.GetParabolicAlgorithm)
    (hc : ∀ c ∈ calls, c.AlgorithmArgEnumerated) :
    IsParabolicAlgorithm (runCalls f calls).GetParabolicAlgorithm := by
  induction calls generalizing f with
  | nil => exact hf
  | cons c cs ih =>
    exact ih (c.run f)
      (isParabolicAlgorithm_run f c hf (hc c (List.mem_cons_self c cs)))
      (fun d hd => hc d (List.mem_cons_of_mem c hd))

end ParabolicOpenCloseSafeBorderImageFilter

/-! ## Lemmas on the statistics scan -/

/-- The scan started from a summary `acc` returns bounds for `acc` and for every scanned
sample, and each bound is a bound of `acc` or one of the samples. -/
theorem foldl_accumulate_spec {P : Type} [LinearOrder P] (ps : List P)
    (acc : StatisticsSummary P) :
    (ps.foldl StatisticsSummary.accumulate acc).m_Minimum ≤ acc.m_Minimum ∧
    acc.m_Maximum ≤ (ps.foldl StatisticsSummary.accumulate acc).m_Maximum ∧
    (∀ p ∈ ps, (ps.foldl StatisticsSummary.accumulate acc).m_Minimum ≤ p ∧
      p ≤ (ps.foldl StatisticsSummary.accumulate acc).m_Maximum) ∧
    ((ps.foldl StatisticsSummary.accumulate acc).m_Minimum = acc.m_Minimum ∨
      (ps.foldl StatisticsSummary.accumulate acc).m_Minimum ∈ ps) ∧
    ((ps.foldl StatisticsSummary.accumulate acc).m_Maximum = acc.m_Maximum ∨
      (ps.foldl StatisticsSummary.accumulate acc).m_Maximum ∈ ps) := by
  induction ps generalizing acc with
  | nil => simp
  | cons q qs ih =>
    obtain ⟨h1, h2, h3, h4, h5⟩ := ih (acc.accumulate q)
    simp only [List.foldl_cons, List.mem_cons]
    have hmin : (acc.accumulate q).m_Minimum = min acc.m_Minimum q := rfl
    have hmax : (acc.accumulate q).m_Maximum = max acc.m_Maximum q := rfl
    rw [hmin] at h1 h4
    rw [hmax] at h2 h5
    refine ⟨le_trans h1 (min_le_left _ _), le_trans (le_max_left _ _) h2, ?_, ?_, ?_⟩
    · intro p hp
      rcases hp with rfl | hp
      · exact ⟨le_trans h1 (min_le_right _ _), le_trans (le_max_right _ _) h2⟩
      · exact h3 p hp
    · rcases h4 with h4 | h4
      · rcases min_choice acc.m_Minimum q with hc | hc
        · exact Or.inl (h4.trans hc)
        · exact Or.inr (Or.inl (h4.trans hc))
      · exact Or.inr (Or.inr h4)
    · rcases h5 with h5 | h5
      · rcases max_choice acc.m_Maximum q with hc | hc
        · exact Or.inl (h5.trans hc)
        · exact Or.inr (Or.inl (h5.trans hc))
      · exact Or.inr (Or.inr h5)

/-- The summary of an image with samples holds the least and the greatest sample. -/
theorem computeStatistics_spec {P : Type} [LinearOrder P] (image : List P)
    (hne : image ≠ []) :
    ∃ st, ComputeStatistics image = some st ∧
      (∀ p ∈ image, st.m_Minimum ≤ p ∧ p ≤ st.m_Maximum) ∧
      st.m_Minimum ∈ image ∧ st.m_Maximum ∈ image := by
  cases image with
  | nil => exact absurd rfl hne
  | cons q qs =>
    obtain ⟨h1, h2, h3, h4, h5⟩ :=
      foldl_accumulate_spec qs ({ m_Minimum := q, m_Maximum := q } : StatisticsSummary P)
    refine ⟨_, rfl, ?_, ?_, ?_⟩
    · intro p hp
      rcases List.mem_cons.mp hp with rfl | hp
      · exact ⟨h1, h2⟩
      · exact h3 p hp
    · rcases h4 with h4 | h4
      · exact List.mem_cons.mpr (Or.inl h4)
      · exact List.mem_cons_of_mem _ h4
    · rcases h5 with h5 | h5
      · exact List.mem_cons.mpr (Or.inl h5)
      · exact List.mem_cons_of_mem _ h5

/-! ## Theorems -/

open ParabolicOpenCloseSafeBorderImageFilter

/-- C5: a freshly constructed filter, opening or closing, has the border-safety flag set
and the algorithm choice INTERSECTION, whose numeric value is 2. -/
theorem C5_fresh_filter_defaults (N : ℕ) (doOpen : Bool) (scale : RadiusType N)
    (useImageSpacing : Bool) :
    (New N doOpen scale useImageSpacing).GetSafeBorder = true ∧
    (New N doOpen scale useImageSpacing).GetParabolicAlgorithm = INTERSECTION ∧
    INTERSECTION = 2 :=
  ⟨rfl, rfl, rfl⟩

/-- Counterexample to C1: a one-dimensional opening filter built with scale 1 and given
SetScale(NaN) holds the scale (NaN).  Called then with the very array GetScale() returns,
SetScale(RadiusType) calls Modified(): the facade invalidation count goes up by one.
SetScale(NaN), with every component of GetScale() already NaN, does the same. -/
theorem C1_counterexample :
    (∀ i, ((New 1 true (RadiusType.Fill (ScalarRealType.Finite 1)) false).SetScale_ScalarRealType
      ScalarRealType.NaN).self.GetScale i = ScalarRealType.NaN) ∧
    (((New 1 true (RadiusType.Fill (ScalarRealType.Finite 1)) false).SetScale_ScalarRealType
        ScalarRealType.NaN).self.SetScale_RadiusType
      ((New 1 true (RadiusType.Fill (ScalarRealType.Finite 1)) false).SetScale_ScalarRealType
        ScalarRealType.NaN).self.GetScale).self.m_MTime =
      ((New 1 true (RadiusType.Fill (ScalarRealType.Finite 1)) false).SetScale_ScalarRealType
        ScalarRealType.NaN).self.m_MTime + 1 ∧
    (((New 1 true (RadiusType.Fill (ScalarRealType.Finite 1)) false).SetScale_ScalarRealType
        ScalarRealType.NaN).self.SetScale_ScalarRealType ScalarRealType.NaN).self.m_MTime =
      ((New 1 true (RadiusType.Fill (ScalarRealType.Finite 1)) false).SetScale_ScalarRealType
        ScalarRealType.NaN).self.m_MTime + 1 := by
  decide

/-- C1 as amended: a scale setter called with a scale that does not differ from the
configured one under the `!=` of the guards is a no-op.  SetScale(RadiusType v) when
`v != GetScale()` is false, and SetScale(scalar s) when no component of GetScale() differs
from s, leave the configured scale and the facade invalidation count as they were, so
Modified() was not called; the whole filter is returned as it was.  A NaN component
differs from itself, so a scale that holds one is never current in this sense. -/
theorem C1_setScale_equal_scale_is_noop {N : ℕ} {doOpen : Bool}
    (f : ParabolicOpenCloseSafeBorderImageFilter N doOpen)
    (v : RadiusType N) (s : ScalarRealType) :
    (RadiusType.ne v f.GetScale = false →
      (f.SetScale_RadiusType v).self.GetScale = f.GetScale ∧
      (f.SetScale_RadiusType v).self.m_MTime = f.m_MTime ∧
      (f.SetScale_RadiusType v).self = f) ∧
    ((∀ i, (f.GetScale i).ne s = false) →
      (f.SetScale_ScalarRealType s).self.GetScale = f.GetScale ∧
      (f.SetScale_ScalarRealType s).self.m_MTime = f.m_MTime ∧
      (f.SetScale_ScalarRealType s).self = f) := by
  constructor
  · intro hv
    rw [setScale_RadiusType_same f hv]
    exact ⟨rfl, rfl, rfl⟩
  · intro hs
    have hd : RadiusType.ne f.GetScale (RadiusType.Fill s) = false :=
      (RadiusType.ne_eq_false_iff _ _).mpr hs
    rcases setScale_ScalarRealType_cases f s with ⟨_, h⟩ | ⟨_, hd2, _⟩ | ⟨_, _, h⟩
    · rw [h]
      exact ⟨rfl, rfl, rfl⟩
    · rw [hd] at hd2
      exact absurd hd2 (by simp)
    · rw [h]
      exact ⟨rfl, rfl, rfl⟩

/-- Witness of the amended C1: a three-dimensional opening filter with scale 2 on every
axis, given the array (2, 2, 2) and the scalar 2. -/
theorem C1_setScale_equal_scale_is_noop_witness :
    (RadiusType.ne (RadiusType.Fill (ScalarRealType.Finite 2))
        (New 3 true (RadiusType.Fill (ScalarRealType.Finite 2)) false).GetScale = false ∧
      ((New 3 true (RadiusType.Fill (ScalarRealType.Finite 2)) false).SetScale_RadiusType
        (RadiusType.Fill (ScalarRealType.Finite 2))).self.GetScale
        = (New 3 true (RadiusType.Fill (ScalarRealType.Finite 2)) false).GetScale ∧
      ((New 3 true (RadiusType.Fill (ScalarRealType.Finite 2)) false).SetScale_RadiusType
        (RadiusType.Fill (ScalarRealType.Finite 2))).self.m_MTime
        = (New 3 true (RadiusType.Fill (ScalarRealType.Finite 2)) false).m_MTime ∧
      ((New 3 true (RadiusType.Fill (ScalarRealType.Finite 2)) false).SetScale_RadiusType
        (RadiusType.Fill (ScalarRealType.Finite 2))).self
        = New 3 true (RadiusType.Fill (ScalarRealType.Finite 2)) false) ∧
    ((∀ i, ((New 3 true (RadiusType.Fill (ScalarRealType.Finite 2)) false).GetScale i).ne
        (ScalarRealType.Finite 2) = false) ∧
      ((New 3 true (RadiusType.Fill (ScalarRealType.Finite 2)) false).SetScale_ScalarRealType
        (ScalarRealType.Finite 2)).self.GetScale
        = (New 3 true (RadiusType.Fill (ScalarRealType.Finite 2)) false).GetScale ∧
      ((New 3 true (RadiusType.Fill (ScalarRealType.Finite 2)) false).SetScale_ScalarRealType
        (ScalarRealType.Finite 2)).self.m_MTime
        = (New 3 true (RadiusType.Fill (ScalarRealType.Finite 2)) false).m_MTime ∧
      ((New 3 true (RadiusType.Fill (ScalarRealType.Finite 2)) false).SetScale_ScalarRealType
        (ScalarRealType.Finite 2)).self
        = New 3 true (RadiusType.Fill (ScalarRealType.Finite 2)) false) :=
  have hs : ∀ i, ((New 3 true (RadiusType.Fill (ScalarRealType.Finite 2)) false).GetScale i).ne
      (ScalarRealType.Finite 2) = false := by
    intro i
    simp [New, GetScale, MorphFilterType.GetScale, MorphFilterType.New, RadiusType.Fill,
      ScalarRealType.ne]
  have hv : RadiusType.ne (RadiusType.Fill (ScalarRealType.Finite 2))
      (New 3 true (RadiusType.Fill (ScalarRealType.Finite 2)) false).GetScale = false :=
    (RadiusType.ne_eq_false_iff _ _).mpr hs
  ⟨⟨hv, (C1_setScale_equal_scale_is_noop
      (New 3 true (RadiusType.Fill (ScalarRealType.Finite 2)) false)
      (RadiusType.Fill (ScalarRealType.Finite 2)) (ScalarRealType.Finite 2)).1 hv⟩,
   ⟨hs, (C1_setScale_equal_scale_is_noop
      (New 3 true (RadiusType.Fill (ScalarRealType.Finite 2)) false)
      (RadiusType.Fill (ScalarRealType.Finite 2)) (ScalarRealType.Finite 2)).2 hs⟩⟩

/-- C9: SetUseImageSpacing(B) calls the facade Modified() if and only if B differs from the
value GetUseImageSpacing() had before: the facade invalidation count is one higher exactly
when B differs and the same exactly when B is the current value.  After the call
GetUseImageSpacing() returns B.  When B is the current value the internal morphological
operator is not touched. -/
theorem C9_setUseImageSpacing {N : ℕ} {doOpen : Bool}
    (f : ParabolicOpenCloseSafeBorderImageFilter N doOpen) (B : Bool) :
    ((f.SetUseImageSpacing B).m_MTime = f.m_MTime + 1 ↔ B ≠ f.GetUseImageSpacing) ∧
    ((f.SetUseImageSpacing B).m_MTime = f.m_MTime ↔ B = f.GetUseImageSpacing) ∧
    (f.SetUseImageSpacing B).GetUseImageSpacing = B ∧
    (B = f.GetUseImageSpacing → (f.SetUseImageSpacing B).m_MorphFilt = f.m_MorphFilt) := by
  by_cases h : B = f.GetUseImageSpacing
  · rw [setUseImageSpacing_current f B h]
    exact ⟨⟨fun hc => absurd hc (by omega), fun hc => absurd h hc⟩,
      ⟨fun _ => h, fun _ => rfl⟩, h.symm, fun _ => rfl⟩
  · rw [setUseImageSpacing_changed f B h]
    refine ⟨⟨fun _ => h, fun _ => rfl⟩, ⟨fun hc => ?_, fun hc => absurd hc h⟩, ?_,
      fun hc => absurd hc h⟩
    · have h1 : f.m_MTime + 1 = f.m_MTime := hc
      omega
    · exact MorphFilterType.morph_getUseImageSpacing_setUseImageSpacing f.m_MorphFilt B

/-- Witness of C9: a two-dimensional closing filter built with the flag off, asked for
the flag off again. -/
theorem C9_setUseImageSpacing_witness :
    false = (New 2 false (RadiusType.Fill (ScalarRealType.Finite 1)) false).GetUseImageSpacing ∧
    ((New 2 false (RadiusType.Fill (ScalarRealType.Finite 1)) false).SetUseImageSpacing false).m_MorphFilt =
      (New 2 false (RadiusType.Fill (ScalarRealType.Finite 1)) false).m_MorphFilt :=
  ⟨rfl, (C9_setUseImageSpacing (New 2 false (RadiusType.Fill (ScalarRealType.Finite 1)) false) false).2.2.2 rfl⟩

/-- C10: each setter changes only its own configuration field.  SetScale (either overload)
leaves the spacing-awareness flag, the border-safety flag and the algorithm choice as they
were; SetUseImageSpacing leaves the scale, the border-safety flag and the algorithm choice;
SetSafeBorder leaves the scale, the spacing-awareness flag and the algorithm choice;
SetParabolicAlgorithm leaves the scale, the spacing-awareness flag and the border-safety
flag. -/
theorem C10_setters_change_only_their_field {N : ℕ} {doOpen : Bool}
    (f : ParabolicOpenCloseSafeBorderImageFilter N doOpen)
    (s : ScalarRealType) (v : RadiusType N) (B b : Bool) (a : ℤ) :
    ((f.SetScale_ScalarRealType s).self.GetUseImageSpacing = f.GetUseImageSpacing ∧
      (f.SetScale_ScalarRealType s).self.GetSafeBorder = f.GetSafeBorder ∧
      (f.SetScale_ScalarRealType s).self.GetParabolicAlgorithm = f.GetParabolicAlgorithm) ∧
    ((f.SetScale_RadiusType v).self.GetUseImageSpacing = f.GetUseImageSpacing ∧
      (f.SetScale_RadiusType v).self.GetSafeBorder = f.GetSafeBorder ∧
      (f.SetScale_RadiusType v).self.GetParabolicAlgorithm = f.GetParabolicAlgorithm) ∧
    ((f.SetUseImageSpacing B).GetScale = f.GetScale ∧
      (f.SetUseImageSpacing B).GetSafeBorder = f.GetSafeBorder ∧
      (f.SetUseImageSpacing B).GetParabolicAlgorithm = f.GetParabolicAlgorithm) ∧
    ((f.SetSafeBorder b).GetScale = f.GetScale ∧
      (f.SetSafeBorder b).GetUseImageSpacing = f.GetUseImageSpacing ∧
      (f.SetSafeBorder b).GetParabolicAlgorithm = f.GetParabolicAlgorithm) ∧
    ((f.SetParabolicAlgorithm a).GetScale = f.GetScale ∧
      (f.SetParabolicAlgorithm a).GetUseImageSpacing = f.GetUseImageSpacing ∧
      (f.SetParabolicAlgorithm a).GetSafeBorder = f.GetSafeBorder) := by
  refine ⟨frame_setScale_ScalarRealType f s, frame_setScale_RadiusType f v, ?_, ?_, ?_⟩
  · unfold SetUseImageSpacing
    split
    · exact ⟨MorphFilterType.morph_getScale_setUseImageSpacing _ _, rfl, rfl⟩
    · exact ⟨rfl, rfl, rfl⟩
  · unfold SetSafeBorder
    split
    · exact ⟨rfl, rfl, rfl⟩
    · exact ⟨rfl, rfl, rfl⟩
  · unfold SetParabolicAlgorithm
    split
    · exact ⟨rfl, rfl, rfl⟩
    · exact ⟨rfl, rfl, rfl⟩

/-- Counterexample to C6: one call SetParabolicAlgorithm(3) on a fresh filter leaves
GetParabolicAlgorithm() = 3, which is none of NOCHOICE, CONTACTPOINT, INTERSECTION. -/
theorem C6_counterexample :
    (runCalls (New 1 true (RadiusType.Fill (ScalarRealType.Finite 1)) false)
      [SetterCall.SetParabolicAlgorithm 3]).GetParabolicAlgorithm = 3 ∧
    ¬ IsParabolicAlgorithm (runCalls (New 1 true (RadiusType.Fill (ScalarRealType.Finite 1)) false)
      [SetterCall.SetParabolicAlgorithm 3]).GetParabolicAlgorithm := by
  have h : (runCalls (New 1 true (RadiusType.Fill (ScalarRealType.Finite 1)) false)
      [SetterCall.SetParabolicAlgorithm 3]).GetParabolicAlgorithm = 3 :=
    getParabolicAlgorithm_setParabolicAlgorithm (New 1 true (RadiusType.Fill (ScalarRealType.Finite 1)) false) 3
  refine ⟨h, ?_⟩
  rw [h]
  simp [IsParabolicAlgorithm, NOCHOICE, CONTACTPOINT, INTERSECTION]

/-- C6 as amended: SetParabolicAlgorithm takes an int and stores whatever it is given, so
GetParabolicAlgorithm() returns the last argument.  In every state reached from
construction by a sequence of setter calls in which each SetParabolicAlgorithm argument is
one of NOCHOICE (0), CONTACTPOINT (1), INTERSECTION (2), GetParabolicAlgorithm() is one of
these three values. -/
theorem C6_algorithm_enumerated_when_arguments_are {N : ℕ} {doOpen : Bool}
    (scale : RadiusType N) (useImageSpacing : Bool) (calls : List (SetterCall N))
    (f : ParabolicOpenCloseSafeBorderImageFilter N doOpen) (a : ℤ)
    (hcalls : ∀ c ∈ calls, c.AlgorithmArgEnumerated) :
    (f.SetParabolicAlgorithm a).GetParabolicAlgorithm = a ∧
    IsParabolicAlgorithm
      (runCalls (New N doOpen scale useImageSpacing) calls).GetParabolicAlgorithm :=
  ⟨getParabolicAlgorithm_setParabolicAlgorithm f a,
   isParabolicAlgorithm_runCalls calls _ (Or.inr (Or.inr rfl)) hcalls⟩

/-- Witness of the amended C6: a fresh two-dimensional opening filter after
SetParabolicAlgorithm(CONTACTPOINT), SetScale(3), SafeBorderOff(). -/
theorem C6_algorithm_enumerated_when_arguments_are_witness :
    (∀ c ∈ [SetterCall.SetParabolicAlgorithm CONTACTPOINT,
        SetterCall.SetScale_ScalarRealType (ScalarRealType.Finite 3), (SetterCall.SafeBorderOff : SetterCall 2)],
      c.AlgorithmArgEnumerated) ∧
    ((New 2 true (RadiusType.Fill (ScalarRealType.Finite 1)) false).SetParabolicAlgorithm 0).GetParabolicAlgorithm = 0 ∧
    IsParabolicAlgorithm
      (runCalls (New 2 true (RadiusType.Fill (ScalarRealType.Finite 1)) false)
        [SetterCall.SetParabolicAlgorithm CONTACTPOINT,
         SetterCall.SetScale_ScalarRealType (ScalarRealType.Finite 3), SetterCall.SafeBorderOff]).GetParabolicAlgorithm :=
  have h : ∀ c ∈ [SetterCall.SetParabolicAlgorithm CONTACTPOINT,
        SetterCall.SetScale_ScalarRealType (ScalarRealType.Finite 3), (SetterCall.SafeBorderOff : SetterCall 2)],
      c.AlgorithmArgEnumerated := by
    simp [SetterCall.AlgorithmArgEnumerated, IsParabolicAlgorithm]
  ⟨h, C6_algorithm_enumerated_when_arguments_are (RadiusType.Fill (ScalarRealType.Finite 1)) false _
    (New 2 true (RadiusType.Fill (ScalarRealType.Finite 1)) false) 0 h⟩

/-- C4: with border safety enabled the constant used to pad the image depends only on the
operation kind and on the statistics of the input image.  For an image with samples the
statistics summary holds the least and the greatest sample; an opening filter
(doOpen = true) pads with the maximum and a closing filter (doOpen = false) with the
minimum, and any two filters of the same kind with border safety on choose the same value
whatever their other settings. -/
theorem C4_pad_constant_is_image_extremum {N : ℕ} {doOpen : Bool} {P : Type} [LinearOrder P]
    (f g : ParabolicOpenCloseSafeBorderImageFilter N doOpen) (image : List P)
    (hf : f.GetSafeBorder = true) (hg : g.GetSafeBorder = true) (hne : image ≠ []) :
    ∃ st, ComputeStatistics image = some st ∧
      (∀ p ∈ image, st.m_Minimum ≤ p ∧ p ≤ st.m_Maximum) ∧
      st.m_Minimum ∈ image ∧ st.m_Maximum ∈ image ∧
      (doOpen = true → f.PadConstant image = some st.m_Maximum) ∧
      (doOpen = false → f.PadConstant image = some st.m_Minimum) ∧
      g.PadConstant image = f.PadConstant image := by
  obtain ⟨st, hst, hb, hmin, hmax⟩ := computeStatistics_spec image hne
  have hf1 : f.m_SafeBorder = true := hf
  have hg1 : g.m_SafeBorder = true := hg
  refine ⟨st, hst, hb, hmin, hmax, ?_, ?_, ?_⟩
  · intro hd
    simp [PadConstant, hf1, hst, hd]
  · intro hd
    simp [PadConstant, hf1, hst, hd]
  · simp [PadConstant, hf1, hg1]

/-- Witness of C4: the samples 5, 5, 0, 7, 5 given to a fresh opening filter and to the same
filter after SetScale(3). -/
theorem C4_pad_constant_is_image_extremum_witness :
    (New 1 true (RadiusType.Fill (ScalarRealType.Finite 1)) false).GetSafeBorder = true ∧
    ((New 1 true (RadiusType.Fill (ScalarRealType.Finite 1)) false).SetScale_ScalarRealType
      (ScalarRealType.Finite 3)).self.GetSafeBorder = true ∧
    ([5, 5, 0, 7, 5] : List ℤ) ≠ [] ∧
    ∃ st, ComputeStatistics ([5, 5, 0, 7, 5] : List ℤ) = some st ∧
      (∀ p ∈ ([5, 5, 0, 7, 5] : List ℤ), st.m_Minimum ≤ p ∧ p ≤ st.m_Maximum) ∧
      st.m_Minimum ∈ ([5, 5, 0, 7, 5] : List ℤ) ∧ st.m_Maximum ∈ ([5, 5, 0, 7, 5] : List ℤ) ∧
      (true = true → (New 1 true (RadiusType.Fill (ScalarRealType.Finite 1)) false).PadConstant ([5, 5, 0, 7, 5] : List ℤ)
        = some st.m_Maximum) ∧
      (true = false → (New 1 true (RadiusType.Fill (ScalarRealType.Finite 1)) false).PadConstant ([5, 5, 0, 7, 5] : List ℤ)
        = some st.m_Minimum) ∧
      ((New 1 true (RadiusType.Fill (ScalarRealType.Finite 1)) false).SetScale_ScalarRealType
      (ScalarRealType.Finite 3)).self.PadConstant
          ([5, 5, 0, 7, 5] : List ℤ)
        = (New 1 true (RadiusType.Fill (ScalarRealType.Finite 1)) false).PadConstant ([5, 5, 0, 7, 5] : List ℤ) :=
  have h1 : (New 1 true (RadiusType.Fill (ScalarRealType.Finite 1)) false).GetSafeBorder = true := rfl
  have h2 : ((New 1 true (RadiusType.Fill (ScalarRealType.Finite 1)) false).SetScale_ScalarRealType
      (ScalarRealType.Finite 3)).self.GetSafeBorder
      = true :=
    (frame_setScale_ScalarRealType _ _).2.1
  have h3 : ([5, 5, 0, 7, 5] : List ℤ) ≠ [] := by simp
  ⟨h1, h2, h3, C4_pad_constant_is_image_extremum (New 1 true (RadiusType.Fill (ScalarRealType.Finite 1)) false)
    ((New 1 true (RadiusType.Fill (ScalarRealType.Finite 1)) false).SetScale_ScalarRealType
      (ScalarRealType.Finite 3)).self [5, 5, 0, 7, 5] h1 h2 h3⟩

/-- C2: every setter call that changes a configuration value calls the facade Modified()
before it returns, and that Modified() invalidates the facade together with every internal
stage.  For SetScale (both overloads) with a scale that differs from GetScale() and that
the operator takes, and so for every SetScale call after which GetScale() is not what it
was, for SetUseImageSpacing with a flag different from GetUseImageSpacing(), and for
SetSafeBorder and SetParabolicAlgorithm with a value different from the stored one, the
facade invalidation count is one higher after the call and the counts of the morphological
operator, the pad, the crop and the statistics stage are all higher than before. -/
theorem C2_changing_setter_invalidates_all {N : ℕ} {doOpen : Bool}
    (f : ParabolicOpenCloseSafeBorderImageFilter N doOpen)
    (s : ScalarRealType) (v : RadiusType N) (B b : Bool) (a : ℤ) :
    InvalidatedAll f f.Modified ∧
    (RadiusType.ne (RadiusType.Fill s) f.GetScale = true →
      (RadiusType.Fill s : RadiusType N).HasNegative = false →
      InvalidatedAll f (f.SetScale_ScalarRealType s).self) ∧
    ((f.SetScale_ScalarRealType s).self.GetScale ≠ f.GetScale →
      InvalidatedAll f (f.SetScale_ScalarRealType s).self) ∧
    (RadiusType.ne v f.GetScale = true → v.HasNegative = false →
      InvalidatedAll f (f.SetScale_RadiusType v).self) ∧
    ((f.SetScale_RadiusType v).self.GetScale ≠ f.GetScale →
      InvalidatedAll f (f.SetScale_RadiusType v).self) ∧
    (B ≠ f.GetUseImageSpacing → InvalidatedAll f (f.SetUseImageSpacing B)) ∧
    (b ≠ f.GetSafeBorder → InvalidatedAll f (f.SetSafeBorder b)) ∧
    (a ≠ f.GetParabolicAlgorithm → InvalidatedAll f (f.SetParabolicAlgorithm a)) := by
  have hS : RadiusType.ne (RadiusType.Fill s) f.GetScale = true →
      (RadiusType.Fill s : RadiusType N).HasNegative = false →
      InvalidatedAll f (f.SetScale_ScalarRealType s).self := by
    intro hd hn
    rw [RadiusType.radius_ne_comm] at hd
    rw [setScale_ScalarRealType_stored f hn hd]
    exact invalidatedAll_modified_of f _ rfl (Nat.le_succ _) rfl rfl rfl
  have hV : RadiusType.ne v f.GetScale = true → v.HasNegative = false →
      InvalidatedAll f (f.SetScale_RadiusType v).self := by
    intro hd hn
    rw [setScale_RadiusType_accepted f hd hn]
    exact invalidatedAll_modified_of f _ rfl
      (MorphFilterType.morph_mtime_le_setScale _ _) rfl rfl rfl
  refine ⟨invalidatedAll_modified f, hS, ?_, hV, ?_, ?_, ?_, ?_⟩
  · intro h
    rcases setScale_ScalarRealType_cases f s with ⟨_, hc⟩ | ⟨hn, hd, _⟩ | ⟨_, _, hc⟩
    · rw [hc] at h
      exact absurd rfl h
    · rw [RadiusType.radius_ne_comm] at hd
      exact hS hd hn
    · rw [hc] at h
      exact absurd rfl h
  · intro h
    rcases setScale_RadiusType_cases f v with ⟨_, hc⟩ | ⟨_, _, hc⟩ | ⟨hd, hn, _⟩
    · rw [hc] at h
      exact absurd rfl h
    · rw [hc] at h
      exact absurd rfl h
    · exact hV hd hn
  · intro h
    rw [setUseImageSpacing_changed f B h]
    exact invalidatedAll_modified_of f _ rfl
      (MorphFilterType.morph_mtime_le_setUseImageSpacing _ _) rfl rfl rfl
  · intro h
    rw [setSafeBorder_changed f b h]
    exact invalidatedAll_modified_of f _ rfl (le_refl _) rfl rfl rfl
  · intro h
    rw [setParabolicAlgorithm_changed f a h]
    exact invalidatedAll_modified_of f _ rfl (le_refl _) rfl rfl rfl

/-- Witness of C2: a fresh two-dimensional closing filter with scale (1, 1), the flag
off, border safety on and algorithm INTERSECTION, given the scalar 3, the array (1, 4),
the flag on, border safety off and the algorithm CONTACTPOINT. -/
theorem C2_changing_setter_invalidates_all_witness :
    ((RadiusType.ne (RadiusType.Fill (ScalarRealType.Finite 3))
          (New 2 false (RadiusType.Fill (ScalarRealType.Finite 1)) false).GetScale = true ∧
        (RadiusType.Fill (ScalarRealType.Finite 3) : RadiusType 2).HasNegative = false) ∧
      InvalidatedAll (New 2 false (RadiusType.Fill (ScalarRealType.Finite 1)) false)
        ((New 2 false (RadiusType.Fill (ScalarRealType.Finite 1)) false).SetScale_ScalarRealType
          (ScalarRealType.Finite 3)).self) ∧
    (((New 2 false (RadiusType.Fill (ScalarRealType.Finite 1)) false).SetScale_ScalarRealType
          (ScalarRealType.Finite 3)).self.GetScale ≠
        (New 2 false (RadiusType.Fill (ScalarRealType.Finite 1)) false).GetScale ∧
      InvalidatedAll (New 2 false (RadiusType.Fill (ScalarRealType.Finite 1)) false)
        ((New 2 false (RadiusType.Fill (ScalarRealType.Finite 1)) false).SetScale_ScalarRealType
          (ScalarRealType.Finite 3)).self) ∧
    ((RadiusType.ne ![ScalarRealType.Finite 1, ScalarRealType.Finite 4]
          (New 2 false (RadiusType.Fill (ScalarRealType.Finite 1)) false).GetScale = true ∧
        RadiusType.HasNegative ![ScalarRealType.Finite 1, ScalarRealType.Finite 4] = false) ∧
      InvalidatedAll (New 2 false (RadiusType.Fill (ScalarRealType.Finite 1)) false)
        ((New 2 false (RadiusType.Fill (ScalarRealType.Finite 1)) false).SetScale_RadiusType
          ![ScalarRealType.Finite 1, ScalarRealType.Finite 4]).self) ∧
    (((New 2 false (RadiusType.Fill (ScalarRealType.Finite 1)) false).SetScale_RadiusType
          ![ScalarRealType.Finite 1, ScalarRealType.Finite 4]).self.GetScale ≠
        (New 2 false (RadiusType.Fill (ScalarRealType.Finite 1)) false).GetScale ∧
      InvalidatedAll (New 2 false (RadiusType.Fill (ScalarRealType.Finite 1)) false)
        ((New 2 false (RadiusType.Fill (ScalarRealType.Finite 1)) false).SetScale_RadiusType
          ![ScalarRealType.Finite 1, ScalarRealType.Finite 4]).self) ∧
    (true ≠ (New 2 false (RadiusType.Fill (ScalarRealType.Finite 1)) false).GetUseImageSpacing ∧
      InvalidatedAll (New 2 false (RadiusType.Fill (ScalarRealType.Finite 1)) false)
        ((New 2 false (RadiusType.Fill (ScalarRealType.Finite 1)) false).SetUseImageSpacing
          true)) ∧
    (false ≠ (New 2 false (RadiusType.Fill (ScalarRealType.Finite 1)) false).GetSafeBorder ∧
      InvalidatedAll (New 2 false (RadiusType.Fill (ScalarRealType.Finite 1)) false)
        ((New 2 false (RadiusType.Fill (ScalarRealType.Finite 1)) false).SetSafeBorder false)) ∧
    (CONTACTPOINT ≠
        (New 2 false (RadiusType.Fill (ScalarRealType.Finite 1)) false).GetParabolicAlgorithm ∧
      InvalidatedAll (New 2 false (RadiusType.Fill (ScalarRealType.Finite 1)) false)
        ((New 2 false (RadiusType.Fill (ScalarRealType.Finite 1)) false).SetParabolicAlgorithm
          CONTACTPOINT)) :=
  have h1 : RadiusType.ne (RadiusType.Fill (ScalarRealType.Finite 3))
      (New 2 false (RadiusType.Fill (ScalarRealType.Finite 1)) false).GetScale = true := by
    decide
  have h1n : (RadiusType.Fill (ScalarRealType.Finite 3) : RadiusType 2).HasNegative = false := by
    decide
  have h1c : ((New 2 false (RadiusType.Fill (ScalarRealType.Finite 1)) false).SetScale_ScalarRealType
      (ScalarRealType.Finite 3)).self.GetScale ≠
      (New 2 false (RadiusType.Fill (ScalarRealType.Finite 1)) false).GetScale :=
    fun h => absurd (congrFun h 0) (by decide)
  have h2 : RadiusType.ne ![ScalarRealType.Finite 1, ScalarRealType.Finite 4]
      (New 2 false (RadiusType.Fill (ScalarRealType.Finite 1)) false).GetScale = true := by
    decide
  have h2n : RadiusType.HasNegative ![ScalarRealType.Finite 1, ScalarRealType.Finite 4]
      = false := by
    decide
  have h2c : ((New 2 false (RadiusType.Fill (ScalarRealType.Finite 1)) false).SetScale_RadiusType
      ![ScalarRealType.Finite 1, ScalarRealType.Finite 4]).self.GetScale ≠
      (New 2 false (RadiusType.Fill (ScalarRealType.Finite 1)) false).GetScale :=
    fun h => absurd (congrFun h 1) (by decide)
  have h3 : true ≠
      (New 2 false (RadiusType.Fill (ScalarRealType.Finite 1)) false).GetUseImageSpacing := by
    decide
  have h4 : false ≠
      (New 2 false (RadiusType.Fill (ScalarRealType.Finite 1)) false).GetSafeBorder := by
    decide
  have h5 : CONTACTPOINT ≠
      (New 2 false (RadiusType.Fill (ScalarRealType.Finite 1)) false).GetParabolicAlgorithm := by
    decide
  have t := C2_changing_setter_invalidates_all
    (New 2 false (RadiusType.Fill (ScalarRealType.Finite 1)) false)
    (ScalarRealType.Finite 3) ![ScalarRealType.Finite 1, ScalarRealType.Finite 4]
    true false CONTACTPOINT
  ⟨⟨⟨h1, h1n⟩, t.2.1 h1 h1n⟩, ⟨h1c, t.2.2.1 h1c⟩, ⟨⟨h2, h2n⟩, t.2.2.2.1 h2 h2n⟩,
    ⟨h2c, t.2.2.2.2.1 h2c⟩, ⟨h3, t.2.2.2.2.2.1 h3⟩, ⟨h4, t.2.2.2.2.2.2.1 h4⟩,
    ⟨h5, t.2.2.2.2.2.2.2 h5⟩⟩

/-- Counterexample to C7: on a one-dimensional opening filter built with scale 1,
SetScale(-1) is refused with the configuration error; the component of GetScale() is
still 1 afterwards and differs from -1. -/
theorem C7_counterexample :
    ((New 1 true (RadiusType.Fill (ScalarRealType.Finite 1)) false).SetScale_ScalarRealType
      (ScalarRealType.Finite (-1))).error = some ConfigurationError.NegativeScale ∧
    ((New 1 true (RadiusType.Fill (ScalarRealType.Finite 1)) false).SetScale_ScalarRealType
      (ScalarRealType.Finite (-1))).self.GetScale 0 = ScalarRealType.Finite 1 ∧
    (((New 1 true (RadiusType.Fill (ScalarRealType.Finite 1)) false).SetScale_ScalarRealType
      (ScalarRealType.Finite (-1))).self.GetScale 0).ne (ScalarRealType.Finite (-1)) = true ∧
    ((New 1 true (RadiusType.Fill (ScalarRealType.Finite 1)) false).SetScale_ScalarRealType
      (ScalarRealType.Finite (-1))).self.GetScale 0 ≠ ScalarRealType.Finite (-1) := by
  decide

/-- C7 as amended: the uniform scale setter sets the parabola width on every axis when
the value satisfies `>= 0`, which leaves out the negative values the setter rejects and
NaN.  For every filter state and every such scalar s, SetScale(s) returns without an error
and afterwards every component of GetScale() compares equal to s under the `!=` of the
code, whatever the scale was before. -/
theorem C7_setScale_scalar_sets_every_axis {N : ℕ} {doOpen : Bool}
    (f : ParabolicOpenCloseSafeBorderImageFilter N doOpen) (s : ScalarRealType)
    (hs : s.isNonneg = true) :
    (f.SetScale_ScalarRealType s).error = none ∧
    ∀ i, ((f.SetScale_ScalarRealType s).self.GetScale i).ne s = false := by
  have hn : (RadiusType.Fill s : RadiusType N).HasNegative = false :=
    RadiusType.hasNegative_eq_false_of_scaleNonneg fun _ => hs
  rcases setScale_ScalarRealType_cases f s with ⟨hc, _⟩ | ⟨_, _, h⟩ | ⟨_, hd, h⟩
  · rw [hn] at hc
    exact absurd hc (by simp)
  · rw [h]
    exact ⟨rfl, fun _ => ScalarRealType.ne_self_of_isNonneg hs⟩
  · rw [h]
    exact ⟨rfl, (RadiusType.ne_eq_false_iff _ _).mp hd⟩

/-- Witness of the amended C7: a fresh two-dimensional closing filter with scale (1, 1)
given the scalar 3. -/
theorem C7_setScale_scalar_sets_every_axis_witness :
    (ScalarRealType.Finite 3).isNonneg = true ∧
    ((New 2 false (RadiusType.Fill (ScalarRealType.Finite 1)) false).SetScale_ScalarRealType
      (ScalarRealType.Finite 3)).error = none ∧
    ∀ i, (((New 2 false (RadiusType.Fill (ScalarRealType.Finite 1))
      false).SetScale_ScalarRealType (ScalarRealType.Finite 3)).self.GetScale i).ne
        (ScalarRealType.Finite 3) = false :=
  have hs : (ScalarRealType.Finite 3).isNonneg = true := by decide
  ⟨hs, C7_setScale_scalar_sets_every_axis
    (New 2 false (RadiusType.Fill (ScalarRealType.Finite 1)) false) (ScalarRealType.Finite 3) hs⟩

/-- Counterexample to C8: on a one-dimensional opening filter built with scale 1, SetScale
of the array (-1) is refused with the configuration error; GetScale() still returns (1)
afterwards, whose component differs from -1. -/
theorem C8_counterexample :
    ((New 1 true (RadiusType.Fill (ScalarRealType.Finite 1)) false).SetScale_RadiusType
      ![ScalarRealType.Finite (-1)]).error = some ConfigurationError.NegativeScale ∧
    ((New 1 true (RadiusType.Fill (ScalarRealType.Finite 1)) false).SetScale_RadiusType
      ![ScalarRealType.Finite (-1)]).self.GetScale 0 = ScalarRealType.Finite 1 ∧
    (((New 1 true (RadiusType.Fill (ScalarRealType.Finite 1)) false).SetScale_RadiusType
      ![ScalarRealType.Finite (-1)]).self.GetScale 0).ne (ScalarRealType.Finite (-1)) = true ∧
    ((New 1 true (RadiusType.Fill (ScalarRealType.Finite 1)) false).SetScale_RadiusType
      ![ScalarRealType.Finite (-1)]).self.GetScale ≠ ![ScalarRealType.Finite (-1)] := by
  refine ⟨by decide, by decide, by decide, fun h => absurd (congrFun h 0) (by decide)⟩

/-- C8 as amended: the per-axis scale setter and the getter round-trip for every scale
whose components all satisfy `>= 0`, which leaves out the negative components the setter
rejects and NaN.  For every filter state and every such v, SetScale(v) returns without an
error and afterwards GetScale() compares equal to v component by component under the `!=`
of the code.  For every v, GetScale() after the call is the scale stored in the internal
morphological operator: the facade has no scale member of its own. -/
theorem C8_setScale_getScale_roundtrip {N : ℕ} {doOpen : Bool}
    (f : ParabolicOpenCloseSafeBorderImageFilter N doOpen) (v : RadiusType N) :
    (ScaleNonneg v →
      (f.SetScale_RadiusType v).error = none ∧
      (∀ i, ((f.SetScale_RadiusType v).self.GetScale i).ne (v i) = false) ∧
      RadiusType.ne (f.SetScale_RadiusType v).self.GetScale v = false) ∧
    (f.SetScale_RadiusType v).self.GetScale = (f.SetScale_RadiusType v).self.m_MorphFilt.m_Scale := by
  refine ⟨fun hv => ?_, rfl⟩
  have hn : v.HasNegative = false := RadiusType.hasNegative_eq_false_of_scaleNonneg hv
  have key : (f.SetScale_RadiusType v).error = none ∧
      ∀ i, ((f.SetScale_RadiusType v).self.GetScale i).ne (v i) = false := by
    rcases setScale_RadiusType_cases f v with ⟨hd, h⟩ | ⟨_, hc, _⟩ | ⟨_, _, h⟩
    · rw [h]
      rw [RadiusType.radius_ne_comm] at hd
      exact ⟨rfl, (RadiusType.ne_eq_false_iff _ _).mp hd⟩
    · rw [hn] at hc
      exact absurd hc (by simp)
    · rw [h]
      refine ⟨rfl, ?_⟩
      by_cases hm : RadiusType.ne f.m_MorphFilt.m_Scale v = true
      · rw [MorphFilterType.morph_setScale_stored _ hn hm]
        exact fun i => ScalarRealType.ne_self_of_isNonneg (hv i)
      · have hm : RadiusType.ne f.m_MorphFilt.m_Scale v = false := by simpa using hm
        rw [MorphFilterType.morph_setScale_kept _ hn hm]
        exact (RadiusType.ne_eq_false_iff _ _).mp hm
  exact ⟨key.1, key.2, (RadiusType.ne_eq_false_iff _ _).mpr key.2⟩

/-- Witness of the amended C8: a fresh two-dimensional closing filter with scale (1, 1)
given the array (0, 4). -/
theorem C8_setScale_getScale_roundtrip_witness :
    ScaleNonneg ![ScalarRealType.Finite 0, ScalarRealType.Finite 4] ∧
    ((New 2 false (RadiusType.Fill (ScalarRealType.Finite 1)) false).SetScale_RadiusType
      ![ScalarRealType.Finite 0, ScalarRealType.Finite 4]).error = none ∧
    (∀ i, (((New 2 false (RadiusType.Fill (ScalarRealType.Finite 1)) false).SetScale_RadiusType
      ![ScalarRealType.Finite 0, ScalarRealType.Finite 4]).self.GetScale i).ne
        (![ScalarRealType.Finite 0, ScalarRealType.Finite 4] i) = false) ∧
    RadiusType.ne ((New 2 false (RadiusType.Fill (ScalarRealType.Finite 1))
      false).SetScale_RadiusType
        ![ScalarRealType.Finite 0, ScalarRealType.Finite 4]).self.GetScale
      ![ScalarRealType.Finite 0, ScalarRealType.Finite 4] = false :=
  have hv : ScaleNonneg ![ScalarRealType.Finite 0, ScalarRealType.Finite 4] := by decide
  ⟨hv, (C8_setScale_getScale_roundtrip
    (New 2 false (RadiusType.Fill (ScalarRealType.Finite 1)) false)
    ![ScalarRealType.Finite 0, ScalarRealType.Finite 4]).1 hv⟩

end itk
